import Mathlib

/-!
Shallow embedding of the synchronization core of `src/App.tsx` (the
`algoo1/file-search` repository): the client registry, the fingerprint/change
detection, the reconciliation cycle `syncAndPoll`, the polling scheduler, the
query gateway `handleSearch` and the client-creation handler `handleAddClient`.

JavaScript conventions mapped into Lean:
* thrown exceptions carrying an `Error` become `Except String` values whose
  payload is the error message (the `catch` block in `syncAndPoll` stores
  `error.message`, or a fixed fallback text for non-`Error` throws);
* the external collaborators (`googleDriveService.getFilesFromFolder`,
  `fileSearchService.syncClientFiles`, `fileSearchService.query`) are not part
  of the repository source, so their outcomes are passed in as parameters;
* JS truthiness on the `string | null` fields (`googleDriveFolderUrl`,
  `fileSearchApiKey.trim()`) is `none`/empty-string falsy, captured by
  `truthy` below;
* each React state setter (`setClients`, `setSyncError`, `setIsSyncing`)
  is one store to the process-wide state; `cycleTrace` records the sequence
  of states a single run of `syncAndPoll` writes, in program order, and
  `syncAndPoll` is the final state of that run.
-/

/-- A file as reported by the Drive collaborator (`RemoteFile`): id and raw
content. -/
structure RemoteFile where
  id : String
  content : String
deriving Repr, DecidableEq

/-- Lifecycle status of a tracked file, from `SyncedFile['status']`. -/
inductive FileStatus where
  | pending
  | syncing
  | indexed
  | error
deriving Repr, DecidableEq

/-- A locally tracked file (`SyncedFile`): id, content, derived summary and
lifecycle status. -/
structure SyncedFile where
  id : String
  content : String
  summary : String
  status : FileStatus
deriving Repr, DecidableEq

/-- A tenant (`Client` in `types.ts` as used by `App.tsx`): id, name, ordered
file sequence, secret API key and optional Drive folder reference. -/
structure Client where
  id : String
  name : String
  files : List SyncedFile
  apiKey : String
  googleDriveFolderUrl : Option String
deriving Repr, DecidableEq

/-- The process-wide React state of `App`: the client registry, the selected
client id, the index credential, the Drive connectivity flag, and the ambient
cycle status pair (`isSyncing`, `syncError`). -/
structure AppState where
  clients : List Client
  selectedClientId : Option String
  fileSearchApiKey : String
  isGoogleDriveConnected : Bool
  isSyncing : Bool
  syncError : Option String
deriving Repr, DecidableEq

/-- Fingerprint of a stored file sequence:
`selectedClient.files.map(f => f.id + f.content).join('')`. -/
def fingerprintSynced (files : List SyncedFile) : String :=
  String.join (files.map (fun f => f.id ++ f.content))

/-- Fingerprint of a fetched remote snapshot:
`driveFiles.map(f => f.id + f.content).join('')`. -/
def fingerprintRemote (files : List RemoteFile) : String :=
  String.join (files.map (fun f => f.id ++ f.content))

/-- JS truthiness of a `string | null` value: `null` and `""` are falsy. -/
def truthy (v : Option String) : Bool :=
  match v with
  | none => false
  | some u => !(u == "")

/-- The selected client:
`clients.find(c => c.id === selectedClientId)` (with `selectedClientId`
possibly `null`, in which case the comparison never succeeds). -/
def selectedClient (s : AppState) : Option Client :=
  match s.selectedClientId with
  | none => none
  | some cid => s.clients.find? (fun c => c.id == cid)

/-- The activation guard at the top of `syncAndPoll`:
`!selectedClient || !selectedClient.googleDriveFolderUrl ||
 !isGoogleDriveConnected || !fileSearchApiKey.trim()` negated. -/
def guardPasses (sel : Option Client) (connected : Bool) (apiKey : String) : Bool :=
  match sel with
  | none => false
  | some c => truthy c.googleDriveFolderUrl && connected && !(apiKey.trim == "")

/-- Optimistic placeholder records built from a fetched snapshot:
`driveFiles.map(df => ({...df, summary: '...', status: 'syncing'}))`. -/
def placeholderFiles (driveFiles : List RemoteFile) : List SyncedFile :=
  driveFiles.map (fun df =>
    { id := df.id, content := df.content, summary := "...", status := FileStatus.syncing })

/-- Registry update used by both `setClients` calls of `syncAndPoll`:
`prev.map(c => c.id === cid ? { ...c, files } : c)`. -/
def setClientFiles (clients : List Client) (cid : String) (files : List SyncedFile) :
    List Client :=
  clients.map (fun c => if c.id == cid then { c with files := files } else c)

/-- The two stores at cycle start: `setIsSyncing(true); setSyncError(null)`. -/
def cycleStart (s : AppState) : AppState :=
  { s with isSyncing := true, syncError := none }

/-- The optimistic `setClients` of step 3, applied to whatever the registry
holds when the store runs. -/
def optimisticUpdate (s : AppState) (cid : String) (driveFiles : List RemoteFile) :
    AppState :=
  { s with clients := setClientFiles s.clients cid (placeholderFiles driveFiles) }

/-- The committing `setClients` of step 5, applied to whatever the registry
holds when the index-sync call returns:
`setClients(prev => prev.map(c => c.id === selectedClient.id ? { ...c, files: indexedFiles } : c))`.
The callback keys on the cycle's captured client id only; it does not consult
the current `selectedClientId`. -/
def commitPhase (s : AppState) (originId : String) (indexedFiles : List SyncedFile) :
    AppState :=
  { s with clients := setClientFiles s.clients originId indexedFiles }

/-- The body of one guarded run of `syncAndPoll` for the captured client
`sel`, as the sequence of states written by its React setters, in program
order (run to completion, no interleaving): the two stores of `cycleStart`,
then either the fetch-failure path, the no-change path, or the optimistic
update followed by commit or sync-failure. -/
def cycleBody (s : AppState) (sel : Client)
    (fetch : Except String (List RemoteFile))
    (sync : List RemoteFile → Except String (List SyncedFile)) : List AppState :=
  let s1 : AppState := { s with isSyncing := true }
  let s2 := cycleStart s
  match fetch with
  | Except.error msg =>
    let e1 := { s2 with syncError := some msg }
    [s1, s2, e1, { e1 with isSyncing := false }]
  | Except.ok driveFiles =>
    if fingerprintSynced sel.files == fingerprintRemote driveFiles then
      [s1, s2, { s2 with isSyncing := false }]
    else
      let s3 := optimisticUpdate s2 sel.id driveFiles
      match sync driveFiles with
      | Except.error msg =>
        let e1 := { s3 with syncError := some msg }
        [s1, s2, s3, e1, { e1 with isSyncing := false }]
      | Except.ok indexedFiles =>
        let s4 := commitPhase s3 sel.id indexedFiles
        [s1, s2, s3, s4, { s4 with isSyncing := false }]

/-- One run of `syncAndPoll` as the sequence of states written by its React
setters, in program order. `fetch` is the outcome of
`googleDriveService.getFilesFromFolder`, `sync` the outcome of
`fileSearchService.syncClientFiles` as a function of the fetched snapshot.
When the activation guard fails the run is the single store
`setIsSyncing(false)`. -/
def cycleTrace (s : AppState) (fetch : Except String (List RemoteFile))
    (sync : List RemoteFile → Except String (List SyncedFile)) : List AppState :=
  match selectedClient s with
  | none => [{ s with isSyncing := false }]
  | some sel =>
    if guardPasses (some sel) s.isGoogleDriveConnected s.fileSearchApiKey then
      cycleBody s sel fetch sync
    else [{ s with isSyncing := false }]

/-- The final state of one run of `syncAndPoll`. -/
def syncAndPoll (s : AppState) (fetch : Except String (List RemoteFile))
    (sync : List RemoteFile → Except String (List SyncedFile)) : AppState :=
  (cycleTrace s fetch sync).getLastD s

/-- The query gateway `handleSearch`: the fixed response when no client is
selected, otherwise the Index collaborator's answer verbatim. `queryOracle`
stands for `fileSearchService.query`. -/
def handleSearch (s : AppState) (queryOracle : Client → String → String → String)
    (q : String) : String :=
  match selectedClient s with
  | none => "No client selected."
  | some c => queryOracle c q s.fileSearchApiKey

/-- The client id minted by `handleAddClient`: the template literal
`` `client_${Date.now()}` `` with the millisecond clock reading `now`. -/
def mkClientId (now : Nat) : String :=
  "client_" ++ toString now

/-- The fresh client built by `handleAddClient`: id from the clock, key from
the UUID, empty files, no folder. -/
def mkClient (name : String) (now : Nat) (uuid : String) : Client :=
  { id := mkClientId now, name := name, files := [],
    apiKey := "key_" ++ uuid, googleDriveFolderUrl := none }

/-- The `handleAddClient` callback: on a non-blank name, append a fresh client
(with id from the clock and key from the UUID) and select it. `now` is the
`Date.now()` reading, `uuid` the `crypto.randomUUID()` result. -/
def handleAddClient (s : AppState) (name : String) (now : Nat) (uuid : String) :
    AppState :=
  if !(name.trim == "") then
    let newClient := mkClient name now uuid
    { s with clients := s.clients ++ [newClient],
             selectedClientId := some newClient.id }
  else s

/-- A sequence of `handleAddClient` calls, each with its name, clock reading
and UUID. -/
def addAll (s : AppState) (ops : List (String × Nat × String)) : AppState :=
  ops.foldl (fun st op => handleAddClient st op.1 op.2.1 op.2.2) s

/-- The initial React state: empty registry, nothing selected, no credential,
disconnected, idle. -/
def initialState : AppState :=
  { clients := [], selectedClientId := none, fileSearchApiKey := "",
    isGoogleDriveConnected := false, isSyncing := false, syncError := none }

/-- Events seen by the polling loop: a firing of the 5-second interval, or the
completion (`finally` block) of an outstanding cycle. -/
inductive SchedEvent where
  | tick
  | complete
deriving Repr, DecidableEq

/-- Effect of one scheduler event on the number of outstanding cycles. The
interval callback is `syncAndPoll` itself: it consults no record of
outstanding cycles, so a tick starts a new cycle exactly when the activation
guard passes (the new cycle then suspends at its first await); a completion
retires one outstanding cycle. `s` is the state captured by the effect's
closure, which the guard reads. -/
def schedStep (s : AppState) (inFlight : Nat) : SchedEvent → Nat
  | SchedEvent.tick =>
    if guardPasses (selectedClient s) s.isGoogleDriveConnected s.fileSearchApiKey then
      inFlight + 1
    else inFlight
  | SchedEvent.complete => inFlight - 1

/-- Number of outstanding cycles after a sequence of scheduler events. -/
def runSched (s : AppState) (inFlight : Nat) (evs : List SchedEvent) : Nat :=
  evs.foldl (schedStep s) inFlight

/-! Concrete sample data used by witnesses and counterexamples. -/

/-- A committed sample file. -/
def fileOld : SyncedFile :=
  { id := "f1", content := "old", summary := "s", status := FileStatus.indexed }

/-- A sample post-sync file as the index collaborator would return it. -/
def fileNew : SyncedFile :=
  { id := "f1", content := "new", summary := "n", status := FileStatus.indexed }

/-- Sample client A with one committed file and a folder reference. -/
def clientA : Client :=
  { id := "clientA", name := "A", files := [fileOld], apiKey := "kA",
    googleDriveFolderUrl := some "folderA" }

/-- Sample client B, empty, with a folder reference. -/
def clientB : Client :=
  { id := "clientB", name := "B", files := [], apiKey := "kB",
    googleDriveFolderUrl := some "folderB" }

/-- Sample state targeting client A, with connectivity and a credential. -/
def stA : AppState :=
  { clients := [clientA, clientB], selectedClientId := some "clientA",
    fileSearchApiKey := "key", isGoogleDriveConnected := true,
    isSyncing := false, syncError := none }

/-- The same registry after the user switches the target to client B. -/
def stB : AppState :=
  { stA with selectedClientId := some "clientB" }

/-- The spec's ordering example, as a remote snapshot. -/
def snapOrdered : List RemoteFile := [⟨"1", "a"⟩, ⟨"2", "b"⟩]

/-- The same pairs as `snapOrdered`, in swapped order. -/
def snapSwapped : List RemoteFile := [⟨"2", "b"⟩, ⟨"1", "a"⟩]

/-- Two distinct pairs whose id-plus-content concatenations commute. -/
def snapColl1 : List RemoteFile := [⟨"a", "a"⟩, ⟨"aa", "aa"⟩]

/-- The pairs of `snapColl1` in swapped order: the fingerprints coincide. -/
def snapColl2 : List RemoteFile := [⟨"aa", "aa"⟩, ⟨"a", "a"⟩]

/-- A remote snapshot whose single pair differs from `fileOld`'s. -/
def snapNew : List RemoteFile := [⟨"f1", "new"⟩]

/-- A stored file whose (id, content) pair is ("ab", ""). -/
def fileAB : SyncedFile :=
  { id := "ab", content := "", summary := "s", status := FileStatus.indexed }

/-- A client storing `fileAB`. -/
def clientC : Client :=
  { id := "clientC", name := "C", files := [fileAB], apiKey := "kC",
    googleDriveFolderUrl := some "folderC" }

/-- A state targeting `clientC`, with connectivity and a credential. -/
def stC : AppState :=
  { clients := [clientC], selectedClientId := some "clientC",
    fileSearchApiKey := "key", isGoogleDriveConnected := true,
    isSyncing := false, syncError := none }

/-- A remote snapshot whose single pair ("a", "b") differs from `fileAB`'s
pair ("ab", "") while the concatenated fingerprints agree. -/
def snapAB : List RemoteFile := [⟨"a", "b"⟩]

/-- Decimal digit sequence of a natural number, most significant first
(reference decoder used to invert `Nat.repr`). -/
def digitsList (n : Nat) : List Char :=
  if h : n < 10 then [Nat.digitChar n]
  else
    have : n / 10 < n := Nat.div_lt_self (by omega) (by omega)
    digitsList (n / 10) ++ [Nat.digitChar (n % 10)]

/-- Numeric value of a decimal digit character. -/
def digitVal (c : Char) : Nat := c.toNat - '0'.toNat

/-- Decode a most-significant-first decimal digit sequence. -/
def decodeDigits (l : List Char) : Nat :=
  l.foldl (fun a c => 10 * a + digitVal c) 0

/-! Helper lemmas about the registry update. -/

/-- A registry update keyed on an id that no client has is the identity. -/
theorem setClientFiles_no_match (cs : List Client) (cid : String)
    (fs : List SyncedFile) (h : ∀ c ∈ cs, c.id ≠ cid) :
    setClientFiles cs cid fs = cs := by
  unfold setClientFiles
  have hcong : ∀ c ∈ cs,
      (if c.id == cid then { c with files := fs } else c) = id c := by
    intro c hc
    have hne : ¬((c.id == cid) = true) := by simp [h c hc]
    rw [if_neg hne]
    rfl
  rw [List.map_congr_left hcong, List.map_id]

/-- Searching the registry by the update key after `setClientFiles` finds the
same client as before, with its `files` replaced. -/
theorem find?_setClientFiles (cs : List Client) (cid : String)
    (fs : List SyncedFile) :
    (setClientFiles cs cid fs).find? (fun c => c.id == cid)
      = (cs.find? (fun c => c.id == cid)).map (fun c => { c with files := fs }) := by
  induction cs with
  | nil => rfl
  | cons hd tl ih =>
    simp only [setClientFiles, List.map_cons] at ih ⊢
    rw [List.find?_cons, List.find?_cons]
    by_cases h2 : (hd.id == cid) = true
    · simp [h2]
    · simpa [h2] using ih

/-- A client found by id carries that id. -/
theorem find?_id_eq {cs : List Client} {cid : String} {c : Client}
    (h : cs.find? (fun c' => c'.id == cid) = some c) : c.id = cid := by
  have := List.find?_some h
  simpa using this

/-- Two registry updates with the same key collapse to the second one. -/
theorem setClientFiles_setClientFiles (cs : List Client) (cid : String)
    (a b : List SyncedFile) :
    setClientFiles (setClientFiles cs cid a) cid b = setClientFiles cs cid b := by
  unfold setClientFiles
  rw [List.map_map]
  apply List.map_congr_left
  intro c _
  by_cases h : (c.id == cid) = true
  · have h' : c.id = cid := by simpa using h
    simp [h, h']
  · have h' : ¬c.id = cid := by simpa using h
    simp [h, h']

/-! Shape lemmas for one run of the cycle. -/

/-- With a selected client and a passing guard, the run is `cycleBody`. -/
theorem cycleTrace_eq_cycleBody {s : AppState} {sel : Client}
    (fetch : Except String (List RemoteFile))
    (sync : List RemoteFile → Except String (List SyncedFile))
    (hsel : selectedClient s = some sel)
    (hg : guardPasses (some sel) s.isGoogleDriveConnected s.fileSearchApiKey = true) :
    cycleTrace s fetch sync = cycleBody s sel fetch sync := by
  simp [cycleTrace, hsel, hg]

/-- With no selected client, the run is the single store `setIsSyncing(false)`. -/
theorem cycleTrace_none {s : AppState}
    (fetch : Except String (List RemoteFile))
    (sync : List RemoteFile → Except String (List SyncedFile))
    (hsel : selectedClient s = none) :
    cycleTrace s fetch sync = [{ s with isSyncing := false }] := by
  simp [cycleTrace, hsel]

/-- With a failing guard, the run is the single store `setIsSyncing(false)`. -/
theorem cycleTrace_guard_false {s : AppState} {sel : Client}
    (fetch : Except String (List RemoteFile))
    (sync : List RemoteFile → Except String (List SyncedFile))
    (hsel : selectedClient s = some sel)
    (hg : guardPasses (some sel) s.isGoogleDriveConnected s.fileSearchApiKey = false) :
    cycleTrace s fetch sync = [{ s with isSyncing := false }] := by
  simp [cycleTrace, hsel, hg]

/-- Final state of a cycle whose remote fetch fails. -/
theorem syncAndPoll_fetch_error {s : AppState} {sel : Client} (msg : String)
    (sync : List RemoteFile → Except String (List SyncedFile))
    (hsel : selectedClient s = some sel)
    (hg : guardPasses (some sel) s.isGoogleDriveConnected s.fileSearchApiKey = true) :
    syncAndPoll s (Except.error msg) sync
      = { s with isSyncing := false, syncError := some msg } := by
  unfold syncAndPoll
  rw [cycleTrace_eq_cycleBody _ _ hsel hg]
  rfl

/-- Final state of a cycle that fetches a snapshot with an unchanged
fingerprint. -/
theorem syncAndPoll_no_change {s : AppState} {sel : Client}
    (remote : List RemoteFile)
    (sync : List RemoteFile → Except String (List SyncedFile))
    (hsel : selectedClient s = some sel)
    (hg : guardPasses (some sel) s.isGoogleDriveConnected s.fileSearchApiKey = true)
    (hfp : fingerprintSynced sel.files = fingerprintRemote remote) :
    syncAndPoll s (Except.ok remote) sync
      = { s with isSyncing := false, syncError := none } := by
  unfold syncAndPoll
  rw [cycleTrace_eq_cycleBody _ _ hsel hg]
  unfold cycleBody
  dsimp only
  rw [show (fingerprintSynced sel.files == fingerprintRemote remote) = true from by
    simp [hfp]]
  rfl

/-- Final state of a cycle that detects a change and whose index-sync call
fails. -/
theorem syncAndPoll_sync_error {s : AppState} {sel : Client}
    {remote : List RemoteFile} {msg : String}
    {sync : List RemoteFile → Except String (List SyncedFile)}
    (hsel : selectedClient s = some sel)
    (hg : guardPasses (some sel) s.isGoogleDriveConnected s.fileSearchApiKey = true)
    (hfp : fingerprintSynced sel.files ≠ fingerprintRemote remote)
    (hsync : sync remote = Except.error msg) :
    syncAndPoll s (Except.ok remote) sync
      = { s with clients := setClientFiles s.clients sel.id (placeholderFiles remote),
                 isSyncing := false, syncError := some msg } := by
  unfold syncAndPoll
  rw [cycleTrace_eq_cycleBody _ _ hsel hg]
  unfold cycleBody
  dsimp only
  rw [show (fingerprintSynced sel.files == fingerprintRemote remote) = false from by
    simp [hfp]]
  rw [hsync]
  rfl

/-- Final state of a cycle that detects a change and commits the index
collaborator's result. -/
theorem syncAndPoll_commit {s : AppState} {sel : Client}
    {remote : List RemoteFile} {fs : List SyncedFile}
    {sync : List RemoteFile → Except String (List SyncedFile)}
    (hsel : selectedClient s = some sel)
    (hg : guardPasses (some sel) s.isGoogleDriveConnected s.fileSearchApiKey = true)
    (hfp : fingerprintSynced sel.files ≠ fingerprintRemote remote)
    (hsync : sync remote = Except.ok fs) :
    syncAndPoll s (Except.ok remote) sync
      = { s with clients := setClientFiles
                   (setClientFiles s.clients sel.id (placeholderFiles remote)) sel.id fs,
                 isSyncing := false, syncError := none } := by
  unfold syncAndPoll
  rw [cycleTrace_eq_cycleBody _ _ hsel hg]
  unfold cycleBody
  dsimp only
  rw [show (fingerprintSynced sel.files == fingerprintRemote remote) = false from by
    simp [hfp]]
  rw [hsync]
  rfl

/-- Final state of a run with no selected client. -/
theorem syncAndPoll_none {s : AppState}
    (fetch : Except String (List RemoteFile))
    (sync : List RemoteFile → Except String (List SyncedFile))
    (hsel : selectedClient s = none) :
    syncAndPoll s fetch sync = { s with isSyncing := false } := by
  unfold syncAndPoll
  rw [cycleTrace_none _ _ hsel]
  rfl

/-- Final state of a run whose guard fails. -/
theorem syncAndPoll_guard_false {s : AppState} {sel : Client}
    (fetch : Except String (List RemoteFile))
    (sync : List RemoteFile → Except String (List SyncedFile))
    (hsel : selectedClient s = some sel)
    (hg : guardPasses (some sel) s.isGoogleDriveConnected s.fileSearchApiKey = false) :
    syncAndPoll s fetch sync = { s with isSyncing := false } := by
  unfold syncAndPoll
  rw [cycleTrace_guard_false _ _ hsel hg]
  rfl

/-- Concrete evaluation fact: trimming the sample credential is the identity
(`String.trim` recurses by well-founded recursion, so this needs one manual
unfolding step before kernel evaluation). -/
theorem trim_key : "key".trim = "key" := by
  unfold String.trim Substring.trim String.toSubstring
  unfold Substring.takeWhileAux
  unfold Substring.takeRightWhileAux
  decide

/-- Sufficient conditions for the activation guard, with the trimmed
credential supplied as an equation so concrete states can be checked without
kernel-reducing `String.trim`. -/
theorem guardPasses_some {c : Client} {connected : Bool} {key trimmed : String}
    (h1 : truthy c.googleDriveFolderUrl = true) (h2 : connected = true)
    (h3 : key.trim = trimmed) (h4 : (trimmed == "") = false) :
    guardPasses (some c) connected key = true := by
  simp [guardPasses, h1, h2, h3, h4]

/-- The sample state `stA` passes the activation guard. -/
theorem guard_stA :
    guardPasses (some clientA) stA.isGoogleDriveConnected stA.fileSearchApiKey
      = true :=
  guardPasses_some (by decide) rfl trim_key (by decide)

/-- The guard of `stA`, phrased through `selectedClient`. -/
theorem guard_stA_sel :
    guardPasses (selectedClient stA) stA.isGoogleDriveConnected stA.fileSearchApiKey
      = true := by
  rw [show selectedClient stA = some clientA from by decide]
  exact guard_stA

/-- The sample state `stC` passes the activation guard. -/
theorem guard_stC :
    guardPasses (some clientC) stC.isGoogleDriveConnected stC.fileSearchApiKey
      = true :=
  guardPasses_some (by decide) rfl trim_key (by decide)


/-- The optimistic placeholders carry the snapshot's ids and contents, so
their fingerprint is the snapshot's fingerprint. -/
theorem fingerprintSynced_placeholder (remote : List RemoteFile) :
    fingerprintSynced (placeholderFiles remote) = fingerprintRemote remote := by
  unfold fingerprintSynced fingerprintRemote placeholderFiles
  rw [List.map_map]
  rfl

/-- After replacing the selected client's files (plus any flag changes), the
selected client is the same client with the new files. -/
theorem selectedClient_after_setClientFiles {s : AppState} {sel : Client}
    (hsel : selectedClient s = some sel) (fs : List SyncedFile) (b : Bool)
    (e : Option String) :
    selectedClient { s with clients := setClientFiles s.clients sel.id fs,
                            isSyncing := b, syncError := e }
      = some { sel with files := fs } := by
  unfold selectedClient at hsel ⊢
  dsimp only
  cases hcid : s.selectedClientId with
  | none =>
    rw [hcid] at hsel
    dsimp only at hsel
    exact absurd hsel (by simp)
  | some cid =>
    rw [hcid] at hsel
    dsimp only at hsel
    have hid : sel.id = cid := find?_id_eq hsel
    dsimp only
    rw [hid, find?_setClientFiles, hsel]
    simp [hid]

/-- C4: the claim that any two snapshots with identical (id, content) pairs
in different orders produce different fingerprints is refuted by pairs whose
id-plus-content concatenations commute: `snapColl1` and `snapColl2` are
distinct orderings of the same two pairs yet share the fingerprint
"aaaaaa". -/
theorem C4_counterexample :
    snapColl1.Perm snapColl2 ∧ snapColl1 ≠ snapColl2
    ∧ fingerprintRemote snapColl1 = fingerprintRemote snapColl2 := by
  refine ⟨?_, by decide, by decide⟩
  show ([⟨"a", "a"⟩, ⟨"aa", "aa"⟩] : List RemoteFile).Perm [⟨"aa", "aa"⟩, ⟨"a", "a"⟩]
  exact List.Perm.swap _ _ _

/-- C4 (amended): the fingerprint is order-sensitive — reordering identical
(id, content) pairs can change it, as on the spec's own example, where the
ordered snapshot fingerprints to "1a2b" and the swapped one to "2b1a", so the
change detector reports a change — but not every reordering changes it
(see the counterexample). -/
theorem C4_order_sensitivity :
    snapOrdered.Perm snapSwapped ∧ snapOrdered ≠ snapSwapped
    ∧ fingerprintRemote snapOrdered = "1a2b"
    ∧ fingerprintRemote snapSwapped = "2b1a"
    ∧ fingerprintRemote snapOrdered ≠ fingerprintRemote snapSwapped := by
  refine ⟨?_, by decide, by decide, by decide, by decide⟩
  show ([⟨"1", "a"⟩, ⟨"2", "b"⟩] : List RemoteFile).Perm [⟨"2", "b"⟩, ⟨"1", "a"⟩]
  exact List.Perm.swap _ _ _

/-- C8: `handleSearch` returns the fixed "No client selected." response when
no client is targeted, and otherwise returns the Index collaborator's answer
for the targeted client verbatim. -/
theorem C8_query_delegation (s : AppState)
    (queryOracle : Client → String → String → String) (q : String) :
    (selectedClient s = none → handleSearch s queryOracle q = "No client selected.")
    ∧ (∀ c : Client, selectedClient s = some c →
        handleSearch s queryOracle q = queryOracle c q s.fileSearchApiKey) := by
  constructor
  · intro h
    unfold handleSearch
    rw [h]
  · intro c h
    unfold handleSearch
    rw [h]

/-- Witness for C8 at concrete inputs: no target in `initialState`, target
`clientA` in `stA`. -/
theorem C8_witness :
    handleSearch initialState (fun _ _ _ => "ans") "q" = "No client selected."
    ∧ handleSearch stA (fun c q key => c.id ++ q ++ key) "q"
        = (fun c q key => c.id ++ q ++ key) clientA "q" stA.fileSearchApiKey :=
  ⟨(C8_query_delegation initialState (fun _ _ _ => "ans") "q").1 rfl,
   (C8_query_delegation stA (fun c q key => c.id ++ q ++ key) "q").2 clientA (by decide)⟩

/-- C10: whenever the activation guard passes, the first two states a cycle
writes are `setIsSyncing(true)` then `setSyncError(null)` — independently of
the fetch and sync outcomes — so `lastError` is reset before the remote fetch
begins. -/
theorem C10_lastError_reset (s : AppState) (sel : Client)
    (fetch : Except String (List RemoteFile))
    (sync : List RemoteFile → Except String (List SyncedFile))
    (hsel : selectedClient s = some sel)
    (hg : guardPasses (some sel) s.isGoogleDriveConnected s.fileSearchApiKey = true) :
    (cycleTrace s fetch sync).take 2 = [{ s with isSyncing := true }, cycleStart s]
    ∧ (cycleStart s).syncError = none := by
  refine ⟨?_, rfl⟩
  rw [cycleTrace_eq_cycleBody fetch sync hsel hg]
  unfold cycleBody
  cases fetch with
  | error msg => rfl
  | ok driveFiles =>
    dsimp only
    by_cases hfp : (fingerprintSynced sel.files == fingerprintRemote driveFiles) = true
    · rw [if_pos hfp]
      rfl
    · rw [if_neg hfp]
      cases hs : sync driveFiles with
      | error m => rfl
      | ok fs => rfl

/-- Witness for C10 at a concrete guarded state. -/
theorem C10_witness :
    (cycleTrace stA (Except.ok []) (fun _ => Except.ok [])).take 2
      = [{ stA with isSyncing := true }, cycleStart stA]
    ∧ (cycleStart stA).syncError = none :=
  C10_lastError_reset stA clientA (Except.ok []) (fun _ => Except.ok [])
    (by decide) guard_stA
/-- C1: the claim that a stale cycle's commit is discarded once the target
has switched is refuted: the commit callback keys only on the cycle's
original client id, so with the target switched to `clientB` and `clientA`
still registered, the stale commit still overwrites `clientA`'s files. -/
theorem C1_counterexample :
    stB.selectedClientId = some "clientB"
    ∧ clientA.id = "clientA"
    ∧ ("clientA" : String) ≠ "clientB"
    ∧ stB.clients.find? (fun c => c.id == "clientA") = some clientA
    ∧ (commitPhase stB "clientA" [fileNew]).clients.find? (fun c => c.id == "clientA")
        = some { clientA with files := [fileNew] }
    ∧ [fileNew] ≠ clientA.files := by decide

/-- C1 (amended): the stale-cycle commit is discarded only when the cycle's
original client has been removed from the registry — then no client's files
change (and the commit itself touches neither `lastError` nor the selection);
when a client with the original id is still registered, the commit replaces
that client's files regardless of the current target. -/
theorem C1_stale_commit (s : AppState) (originId : String) (fs : List SyncedFile) :
    ((∀ c ∈ s.clients, c.id ≠ originId) →
      (commitPhase s originId fs).clients = s.clients)
    ∧ (∀ c : Client, s.clients.find? (fun c' => c'.id == originId) = some c →
        (commitPhase s originId fs).clients.find? (fun c' => c'.id == originId)
          = some { c with files := fs })
    ∧ (commitPhase s originId fs).syncError = s.syncError
    ∧ (commitPhase s originId fs).selectedClientId = s.selectedClientId := by
  refine ⟨?_, ?_, rfl, rfl⟩
  · intro h
    exact setClientFiles_no_match s.clients originId fs h
  · intro c hc
    show (setClientFiles s.clients originId fs).find? (fun c' => c'.id == originId)
      = some { c with files := fs }
    rw [find?_setClientFiles, hc]
    rfl

/-- Witness for C1 (amended): a commit keyed on an unregistered id leaves the
registry unchanged; one keyed on a registered id replaces that client's
files. -/
theorem C1_witness :
    (commitPhase stB "ghost" [fileNew]).clients = stB.clients
    ∧ (commitPhase stB "clientA" [fileNew]).clients.find? (fun c' => c'.id == "clientA")
        = some { clientA with files := [fileNew] } :=
  ⟨(C1_stale_commit stB "ghost" [fileNew]).1 (by decide),
   (C1_stale_commit stB "clientA" [fileNew]).2.1 clientA (by decide)⟩

/-- C2: the claim that a tick firing while a cycle is outstanding starts no
new cycle is refuted: with one cycle outstanding in the guarded state `stA`,
one tick leaves two cycles outstanding. -/
theorem C2_counterexample :
    guardPasses (selectedClient stA) stA.isGoogleDriveConnected stA.fileSearchApiKey
      = true
    ∧ runSched stA 1 [SchedEvent.tick] = 2 := by
  refine ⟨guard_stA_sel, ?_⟩
  show schedStep stA 1 SchedEvent.tick = 2
  simp [schedStep, guard_stA_sel]

/-- C2 (amended): the interval callback consults no record of outstanding
cycles: every tick in a guard-passing state starts a new cycle, so `k`
consecutive ticks with no completions leave `n + k` cycles outstanding
(overlapping cycles are possible; ticks are neither skipped nor queued). -/
theorem C2_no_single_flight (s : AppState) (n k : Nat)
    (hg : guardPasses (selectedClient s) s.isGoogleDriveConnected s.fileSearchApiKey
            = true) :
    runSched s n (List.replicate k SchedEvent.tick) = n + k := by
  induction k generalizing n with
  | zero => rfl
  | succ k ih =>
    rw [List.replicate_succ]
    show runSched s (schedStep s n SchedEvent.tick) (List.replicate k SchedEvent.tick)
      = n + (k + 1)
    rw [show schedStep s n SchedEvent.tick = n + 1 from by simp [schedStep, hg]]
    rw [ih]
    omega

/-- Witness for C2 (amended) at a concrete guarded state. -/
theorem C2_witness :
    runSched stA 1 (List.replicate 2 SchedEvent.tick) = 1 + 2 :=
  C2_no_single_flight stA 1 2 guard_stA_sel

/-- C6: a cycle whose remote listing call fails aborts with `lastError` set
to the failure message and leaves the registry — hence every client's files
and every file's status — exactly as before the cycle began. -/
theorem C6_fetch_error_aborts (s : AppState) (sel : Client) (msg : String)
    (sync : List RemoteFile → Except String (List SyncedFile))
    (hsel : selectedClient s = some sel)
    (hg : guardPasses (some sel) s.isGoogleDriveConnected s.fileSearchApiKey = true) :
    (syncAndPoll s (Except.error msg) sync).clients = s.clients
    ∧ (syncAndPoll s (Except.error msg) sync).syncError = some msg := by
  rw [syncAndPoll_fetch_error msg sync hsel hg]
  exact ⟨rfl, rfl⟩

/-- Witness for C6 at a concrete guarded state. -/
theorem C6_witness :
    (syncAndPoll stA (Except.error "boom") (fun _ => Except.ok [])).clients
        = stA.clients
    ∧ (syncAndPoll stA (Except.error "boom") (fun _ => Except.ok [])).syncError
        = some "boom" :=
  C6_fetch_error_aborts stA clientA "boom" (fun _ => Except.ok [])
    (by decide) guard_stA

/-- C5: when a change was detected, the optimistic replacement applied, and
the index collaborator's sync call then fails, the cycle aborts with
`lastError` set to the failure message and the selected client left holding
the `syncing` placeholders (summary "...", status `syncing`), which differ
from the previously committed sequence — no rollback. -/
theorem C5_sync_error_no_rollback (s : AppState) (sel : Client)
    (remote : List RemoteFile) (msg : String)
    (sync : List RemoteFile → Except String (List SyncedFile))
    (hsel : selectedClient s = some sel)
    (hg : guardPasses (some sel) s.isGoogleDriveConnected s.fileSearchApiKey = true)
    (hfp : fingerprintSynced sel.files ≠ fingerprintRemote remote)
    (hsync : sync remote = Except.error msg) :
    (syncAndPoll s (Except.ok remote) sync).syncError = some msg
    ∧ selectedClient (syncAndPoll s (Except.ok remote) sync)
        = some { sel with files := placeholderFiles remote }
    ∧ placeholderFiles remote ≠ sel.files := by
  rw [syncAndPoll_sync_error hsel hg hfp hsync]
  refine ⟨rfl, ?_, ?_⟩
  · exact selectedClient_after_setClientFiles hsel (placeholderFiles remote)
      false (some msg)
  · intro heq
    exact hfp (by rw [← heq, fingerprintSynced_placeholder])

/-- Witness for C5: the spec's "quota exceeded" example on `stA`. -/
theorem C5_witness :
    (syncAndPoll stA (Except.ok snapNew)
        (fun _ => Except.error "quota exceeded")).syncError
      = some "quota exceeded"
    ∧ selectedClient (syncAndPoll stA (Except.ok snapNew)
        (fun _ => Except.error "quota exceeded"))
      = some { clientA with files := placeholderFiles snapNew }
    ∧ placeholderFiles snapNew ≠ clientA.files :=
  C5_sync_error_no_rollback stA clientA snapNew "quota exceeded"
    (fun _ => Except.error "quota exceeded") (by decide) guard_stA (by decide) rfl
/-- C3: the claim that any remote snapshot differing from the stored sequence
in at least one (id, content) pair triggers a mutation is refuted: the stored
pair ("ab", "") and the fetched pair ("a", "b") differ, yet both concatenate
to the fingerprint "ab", so the cycle reports no change and writes no state
whose registry differs. -/
theorem C3_counterexample :
    clientC.files.map (fun f => (f.id, f.content))
        ≠ snapAB.map (fun f => (f.id, f.content))
    ∧ ((cycleTrace stC (Except.ok snapAB) (fun _ => Except.ok [])).all
        (fun t => t.clients == stC.clients)) = true := by
  refine ⟨by decide, ?_⟩
  rw [cycleTrace_eq_cycleBody (Except.ok snapAB) (fun _ => Except.ok [])
    (by decide) guard_stC]
  decide

/-- C3 (amended): a pairwise difference drives reconciliation only through
the concatenated fingerprints (two differing snapshots can share a
fingerprint, see the counterexample); whenever the fingerprints do differ,
the cycle detects the change and mutates the selected client's files: the
state sequence it writes contains the optimistic state in which the client's
files are the placeholder records, which differ from the stored sequence. -/
theorem C3_fingerprint_drives_mutation (s : AppState) (sel : Client)
    (remote : List RemoteFile)
    (sync : List RemoteFile → Except String (List SyncedFile))
    (hsel : selectedClient s = some sel)
    (hg : guardPasses (some sel) s.isGoogleDriveConnected s.fileSearchApiKey = true)
    (hfp : fingerprintSynced sel.files ≠ fingerprintRemote remote) :
    ∃ t ∈ cycleTrace s (Except.ok remote) sync,
      selectedClient t = some { sel with files := placeholderFiles remote }
      ∧ placeholderFiles remote ≠ sel.files := by
  refine ⟨optimisticUpdate (cycleStart s) sel.id remote, ?_, ?_, ?_⟩
  · rw [cycleTrace_eq_cycleBody _ _ hsel hg]
    unfold cycleBody
    dsimp only
    rw [if_neg (show ¬((fingerprintSynced sel.files == fingerprintRemote remote) = true)
      from by simp [hfp])]
    cases hs : sync remote with
    | error m =>
      exact List.mem_cons_of_mem _ (List.mem_cons_of_mem _ (List.mem_cons_self _ _))
    | ok fs =>
      exact List.mem_cons_of_mem _ (List.mem_cons_of_mem _ (List.mem_cons_self _ _))
  · exact selectedClient_after_setClientFiles hsel (placeholderFiles remote) true none
  · intro heq
    exact hfp (by rw [← heq, fingerprintSynced_placeholder])

/-- Witness for C3 (amended): `stA` stores "f1old" and fetches "f1new". -/
theorem C3_witness :
    ∃ t ∈ cycleTrace stA (Except.ok snapNew) (fun _ => Except.ok []),
      selectedClient t = some { clientA with files := placeholderFiles snapNew }
      ∧ placeholderFiles snapNew ≠ clientA.files :=
  C3_fingerprint_drives_mutation stA clientA snapNew (fun _ => Except.ok [])
    (by decide) guard_stA (by decide)

/-- C7: a cycle whose fetched snapshot fingerprint equals the stored one ends
with zero mutation of the registry; consequently two consecutive cycles
seeing an identical remote snapshot (with the index collaborator returning
records carrying the snapshot's fingerprint) mutate nothing on the second
cycle; and the empty stored sequence against the empty snapshot is no
change. -/
theorem C7_no_change_no_mutation :
    (∀ (s : AppState) (sel : Client) (remote : List RemoteFile)
        (sync : List RemoteFile → Except String (List SyncedFile)),
        selectedClient s = some sel →
        fingerprintSynced sel.files = fingerprintRemote remote →
        (syncAndPoll s (Except.ok remote) sync).clients = s.clients)
    ∧ (∀ (s : AppState) (remote : List RemoteFile) (fs : List SyncedFile)
        (sync2 : List RemoteFile → Except String (List SyncedFile)),
        fingerprintSynced fs = fingerprintRemote remote →
        (syncAndPoll (syncAndPoll s (Except.ok remote) (fun _ => Except.ok fs))
            (Except.ok remote) sync2).clients
          = (syncAndPoll s (Except.ok remote) (fun _ => Except.ok fs)).clients)
    ∧ fingerprintSynced [] = fingerprintRemote [] := by
  have partA : ∀ (s : AppState) (sel : Client) (remote : List RemoteFile)
      (sync : List RemoteFile → Except String (List SyncedFile)),
      selectedClient s = some sel →
      fingerprintSynced sel.files = fingerprintRemote remote →
      (syncAndPoll s (Except.ok remote) sync).clients = s.clients := by
    intro s sel remote sync hsel hfp
    cases hg : guardPasses (some sel) s.isGoogleDriveConnected s.fileSearchApiKey with
    | false => rw [syncAndPoll_guard_false _ _ hsel hg]
    | true => rw [syncAndPoll_no_change remote sync hsel hg hfp]
  refine ⟨partA, ?_, rfl⟩
  intro s remote fs sync2 hfs
  cases hsel : selectedClient s with
  | none =>
    rw [syncAndPoll_none _ _ hsel]
    have hsel2 : selectedClient { s with isSyncing := false } = none := hsel
    rw [syncAndPoll_none _ _ hsel2]
  | some sel =>
    cases hg : guardPasses (some sel) s.isGoogleDriveConnected s.fileSearchApiKey with
    | false =>
      rw [syncAndPoll_guard_false _ _ hsel hg]
      have hsel2 : selectedClient { s with isSyncing := false } = some sel := hsel
      have hg2 : guardPasses (some sel)
          ({ s with isSyncing := false }).isGoogleDriveConnected
          ({ s with isSyncing := false }).fileSearchApiKey = false := hg
      rw [syncAndPoll_guard_false _ _ hsel2 hg2]
    | true =>
      by_cases hfp : fingerprintSynced sel.files = fingerprintRemote remote
      · rw [syncAndPoll_no_change remote _ hsel hg hfp]
        have hsel2 : selectedClient { s with isSyncing := false, syncError := none }
            = some sel := hsel
        exact partA _ sel remote sync2 hsel2 hfp
      · rw [syncAndPoll_commit hsel hg hfp rfl]
        rw [setClientFiles_setClientFiles]
        have hsel2 : selectedClient
            { s with clients := setClientFiles s.clients sel.id fs,
                     isSyncing := false, syncError := none }
            = some { sel with files := fs } :=
          selectedClient_after_setClientFiles hsel fs false none
        exact partA _ { sel with files := fs } remote sync2 hsel2 hfs

/-- Witness for C7: the no-change case and the two-cycle case on `stA`. -/
theorem C7_witness :
    (syncAndPoll stA (Except.ok [⟨"f1", "old"⟩]) (fun _ => Except.ok [])).clients
        = stA.clients
    ∧ (syncAndPoll (syncAndPoll stA (Except.ok snapNew) (fun _ => Except.ok [fileNew]))
          (Except.ok snapNew) (fun _ => Except.ok [])).clients
        = (syncAndPoll stA (Except.ok snapNew) (fun _ => Except.ok [fileNew])).clients :=
  ⟨C7_no_change_no_mutation.1 stA clientA [⟨"f1", "old"⟩] (fun _ => Except.ok [])
      (by decide) (by decide),
   C7_no_change_no_mutation.2.1 stA snapNew [fileNew] (fun _ => Except.ok [])
      (by decide)⟩
/-- Decoding inverts `Nat.digitChar` on decimal digits. -/
theorem digitVal_digitChar (d : Nat) (h : d < 10) :
    digitVal (Nat.digitChar d) = d := by
  interval_cases d <;> decide

/-- One-digit unfolding of `digitsList`. -/
theorem digitsList_lt (n : Nat) (h : n < 10) :
    digitsList n = [Nat.digitChar n] := by
  rw [digitsList.eq_def]
  rw [dif_pos h]

/-- Recursive unfolding of `digitsList`. -/
theorem digitsList_ge (n : Nat) (h : ¬n < 10) :
    digitsList n = digitsList (n / 10) ++ [Nat.digitChar (n % 10)] := by
  rw [digitsList.eq_def]
  rw [dif_neg h]

/-- With enough fuel, the core digit loop of `Nat.repr` produces `digitsList`
in front of its accumulator. -/
theorem toDigitsCore_eq_digitsList :
    ∀ (f n : Nat) (ds : List Char), n < 10 ^ f → 0 < f →
      Nat.toDigitsCore 10 f n ds = digitsList n ++ ds := by
  intro f
  induction f with
  | zero => intro n ds _ hf; exact absurd hf (by omega)
  | succ f ih =>
    intro n ds hn _
    show (if n / 10 = 0 then Nat.digitChar (n % 10) :: ds
          else Nat.toDigitsCore 10 f (n / 10) (Nat.digitChar (n % 10) :: ds))
        = digitsList n ++ ds
    by_cases hz : n / 10 = 0
    · have hn10 : n < 10 := by
        by_contra hge
        push_neg at hge
        have h1 : 1 ≤ n / 10 := (Nat.one_le_div_iff (by omega)).mpr hge
        omega
      rw [if_pos hz]
      rw [digitsList_lt n hn10, Nat.mod_eq_of_lt hn10]
      rfl
    · have hge : 10 ≤ n := by
        by_contra hlt
        push_neg at hlt
        exact hz (Nat.div_eq_of_lt hlt)
      have hf0 : 0 < f := by
        rcases Nat.eq_zero_or_pos f with h0 | h1
        · subst h0
          rw [pow_one] at hn
          omega
        · exact h1
      have hdiv : n / 10 < 10 ^ f := by
        have h2 : (10:Nat) ^ (f+1) = 10 ^ f * 10 := by rw [Nat.pow_succ]
        have h1 : n < 10 ^ f * 10 := by omega
        exact (Nat.div_lt_iff_lt_mul (by omega)).mpr h1
      rw [if_neg hz]
      rw [ih (n / 10) (Nat.digitChar (n % 10) :: ds) hdiv hf0]
      rw [digitsList_ge n (by omega)]
      rw [List.append_assoc]
      rfl

/-- `Nat.repr` renders exactly the digit list. -/
theorem repr_eq_digitsList (n : Nat) :
    Nat.repr n = (digitsList n).asString := by
  show (Nat.toDigits 10 n).asString = _
  unfold Nat.toDigits
  have hb : n < 10 ^ (n + 1) :=
    lt_of_lt_of_le (Nat.lt_pow_self (by omega) n)
      (Nat.pow_le_pow_right (by omega) (Nat.le_succ n))
  rw [toDigitsCore_eq_digitsList (n + 1) n [] hb (by omega), List.append_nil]

/-- Folding one trailing digit. -/
theorem decodeDigits_concat (l : List Char) (c : Char) :
    decodeDigits (l ++ [c]) = 10 * decodeDigits l + digitVal c := by
  unfold decodeDigits
  rw [List.foldl_append]
  rfl

/-- Decoding inverts `digitsList`. -/
theorem decodeDigits_digitsList (n : Nat) : decodeDigits (digitsList n) = n := by
  induction n using Nat.strong_induction_on with
  | _ n ih =>
    by_cases h : n < 10
    · rw [digitsList_lt n h]
      rw [show decodeDigits [Nat.digitChar n] = 10 * 0 + digitVal (Nat.digitChar n)
        from rfl]
      rw [digitVal_digitChar n h]
      omega
    · rw [digitsList_ge n h]
      rw [decodeDigits_concat]
      rw [ih (n / 10) (Nat.div_lt_self (by omega) (by omega))]
      rw [digitVal_digitChar (n % 10) (Nat.mod_lt n (by omega))]
      omega

/-- `digitsList` is injective. -/
theorem digitsList_inj {m n : Nat} (h : digitsList m = digitsList n) : m = n := by
  have h2 := congrArg decodeDigits h
  rwa [decodeDigits_digitsList, decodeDigits_digitsList] at h2

/-- `Nat.repr` is injective. -/
theorem repr_inj_nat {m n : Nat} (h : Nat.repr m = Nat.repr n) : m = n := by
  rw [repr_eq_digitsList, repr_eq_digitsList] at h
  apply digitsList_inj
  simpa [List.asString] using congrArg String.data h

/-- The minted client id is injective in the clock reading. -/
theorem mkClientId_inj {m n : Nat} (h : mkClientId m = mkClientId n) : m = n := by
  apply repr_inj_nat
  unfold mkClientId at h
  have h2 := congrArg String.data h
  rw [String.data_append, String.data_append] at h2
  have h3 := List.append_cancel_left h2
  show Nat.repr m = Nat.repr n
  exact String.ext h3
/-- Concrete evaluation fact for the sample name "a". -/
theorem trim_a : "a".trim = "a" := by
  unfold String.trim Substring.trim String.toSubstring
  unfold Substring.takeWhileAux
  unfold Substring.takeRightWhileAux
  decide

/-- Concrete evaluation fact for the sample name "b". -/
theorem trim_b : "b".trim = "b" := by
  unfold String.trim Substring.trim String.toSubstring
  unfold Substring.takeWhileAux
  unfold Substring.takeRightWhileAux
  decide

/-- Invariant carried through a sequence of `handleAddClient` calls: if the
registry ids are distinct and none of them collides with an id any pending
operation would mint, and the pending clock readings are pairwise distinct,
the registry ids stay distinct. -/
theorem addAll_ids_nodup_aux :
    ∀ (ops : List (String × Nat × String)) (s : AppState),
      ((s.clients.map (fun c => c.id)).Nodup) →
      (∀ c ∈ s.clients, ∀ op ∈ ops, c.id ≠ mkClientId op.2.1) →
      ((ops.map (fun op => op.2.1)).Pairwise (fun a b => a ≠ b)) →
      (((addAll s ops).clients.map (fun c => c.id)).Nodup) := by
  intro ops
  induction ops with
  | nil => intro s h1 _ _; exact h1
  | cons op rest ih =>
    intro s h1 h2 h3
    show (((addAll (handleAddClient s op.1 op.2.1 op.2.2) rest).clients.map
      (fun c => c.id)).Nodup)
    by_cases hname : (op.1.trim == "") = true
    · rw [show handleAddClient s op.1 op.2.1 op.2.2 = s from by
        simp [handleAddClient, hname]]
      exact ih s h1
        (fun c hc op' hop' => h2 c hc op' (List.mem_cons_of_mem _ hop'))
        (List.pairwise_cons.mp h3).2
    · rw [show handleAddClient s op.1 op.2.1 op.2.2
          = { s with clients := s.clients ++ [mkClient op.1 op.2.1 op.2.2],
                     selectedClientId := some (mkClient op.1 op.2.1 op.2.2).id }
        from by simp [handleAddClient, hname]]
      apply ih
      · rw [show ({ s with
                      clients := s.clients ++ [mkClient op.1 op.2.1 op.2.2],
                      selectedClientId := some (mkClient op.1 op.2.1 op.2.2).id }
              : AppState).clients
            = s.clients ++ [mkClient op.1 op.2.1 op.2.2] from rfl]
        rw [List.map_append]
        rw [List.nodup_append]
        refine ⟨h1, by simp, ?_⟩
        intro a ha hb
        simp only [List.map_cons, List.map_nil, List.mem_singleton] at hb
        rcases List.mem_map.mp ha with ⟨c, hc, hcid⟩
        exact h2 c hc op (List.mem_cons_self _ _) (by rw [hcid, hb]; rfl)
      · intro c hc op' hop'
        rcases List.mem_append.mp hc with hold | hnew
        · exact h2 c hold op' (List.mem_cons_of_mem _ hop')
        · have hc' : c = mkClient op.1 op.2.1 op.2.2 := by simpa using hnew
          rw [hc']
          intro heq
          have hsame : op.2.1 = op'.2.1 := mkClientId_inj heq
          have hne := (List.pairwise_cons.mp h3).1 op'.2.1
            (List.mem_map_of_mem (fun o => o.2.1) hop')
          exact hne hsame
      · exact (List.pairwise_cons.mp h3).2

/-- C9: the claim that every sequence of add-client operations yields
pairwise-distinct registry ids is refuted: two adds observing the same
millisecond clock reading mint the same id `client_5`. -/
theorem C9_counterexample :
    ¬ (((addAll initialState [("a", 5, "u1"), ("b", 5, "u2")]).clients.map
        (fun c => c.id)).Nodup) := by
  rw [show addAll initialState [("a", 5, "u1"), ("b", 5, "u2")]
      = handleAddClient (handleAddClient initialState "a" 5 "u1") "b" 5 "u2"
    from rfl]
  rw [show handleAddClient initialState "a" 5 "u1"
      = { initialState with clients := [mkClient "a" 5 "u1"],
                            selectedClientId := some (mkClient "a" 5 "u1").id }
    from by simp [handleAddClient, trim_a, initialState]]
  rw [show handleAddClient
        { initialState with clients := [mkClient "a" 5 "u1"],
                            selectedClientId := some (mkClient "a" 5 "u1").id }
        "b" 5 "u2"
      = { initialState with clients := [mkClient "a" 5 "u1", mkClient "b" 5 "u2"],
                            selectedClientId := some (mkClient "b" 5 "u2").id }
    from by simp [handleAddClient, trim_b, initialState]]
  decide

/-- C9 (amended): registry ids are pairwise distinct provided every
add-client operation observes a distinct `Date.now()` reading (the id is
`client_` followed by the decimal clock value, which is injective in the
reading); without that proviso two same-millisecond adds collide. -/
theorem C9_ids_distinct (ops : List (String × Nat × String))
    (h : (ops.map (fun op => op.2.1)).Pairwise (fun a b => a ≠ b)) :
    (((addAll initialState ops).clients.map (fun c => c.id)).Nodup) :=
  addAll_ids_nodup_aux ops initialState (by simp [initialState])
    (by simp [initialState]) h

/-- Witness for C9 (amended): two adds at distinct clock readings. -/
theorem C9_witness :
    (((addAll initialState [("a", 5, "u1"), ("b", 6, "u2")]).clients.map
        (fun c => c.id)).Nodup) :=
  C9_ids_distinct [("a", 5, "u1"), ("b", 6, "u2")] (by simp)
